/-
Verification of the Isaac4 short-read aligner core against its
natural-language specification.

Shallow embedding of:
  - src/c++/include/alignment/Quality.hh (mapping-quality and alignment
    score computations),
  - src/c++/include/statistics/MatchFinderTileStats.hh (per-tile seed
    statistics),
  - src/c++/include/reference/SortedReferenceMetadata.hh (reference
    metadata, contig equality),
  - src/c++/lib/workflow/AlignWorkflow.cpp (workflow state machine).

C++ unsigned integers are modelled by Nat with explicit reduction
modulo 2^w where overflow matters; doubles are modelled by real numbers;
code paths guarded by ISAAC_ASSERT_MSG appear as hypotheses of the
theorems (the assert aborts the program, so the value computed past a
failed assert is never observed), or as Option/error results where the
claim is about the failure itself.
-/
import Mathlib

namespace Isaac

/-! ## alignment/Quality.hh -/

/-- Source constant `REPEAT_ALIGNMENT_SCORE = 3`. -/
def REPEAT_ALIGNMENT_SCORE : Nat := 3

/-- Source constant `UNKNOWN_ALIGNMENT_SCORE = -1U`, i.e. 2^32 - 1 as unsigned. -/
def UNKNOWN_ALIGNMENT_SCORE : Nat := 2 ^ 32 - 1

/-- Source constant `UNKNOWN_MAPQ = 255`. -/
def UNKNOWN_MAPQ : Nat := 255

/-- Source constant `MAX_MAPQ = 60`. -/
def MAX_MAPQ : Nat := 60

/-- `isUnique(alignmentScore) = REPEAT_ALIGNMENT_SCORE < alignmentScore`. -/
def isUnique (alignmentScore : Nat) : Bool := REPEAT_ALIGNMENT_SCORE < alignmentScore

/-- `alignmentScoreToMapq(alignmentScore) = std::min(MAX_MAPQ, alignmentScore)`;
the `ISAAC_ASSERT_MSG(UNKNOWN_ALIGNMENT_SCORE != alignmentScore)` precondition is
carried by the theorems. The result is at most 60, so the conversion of the
`std::min<unsigned>` result to `unsigned char` never truncates. -/
def alignmentScoreToMapq (alignmentScore : Nat) : Nat := min MAX_MAPQ alignmentScore

/-- `pickMapQ(alignmentScore, mateAlignmentScore, properPair, templateAlignmentScore)`:
`alignmentScoreToMapq(properPair ? std::max(alignmentScore,
std::min(templateAlignmentScore, mateAlignmentScore)) : alignmentScore)`. -/
def pickMapQ (alignmentScore mateAlignmentScore : Nat) (properPair : Bool)
    (templateAlignmentScore : Nat) : Nat :=
  alignmentScoreToMapq
    (if properPair then
      max alignmentScore (min templateAlignmentScore mateAlignmentScore)
     else alignmentScore)

/-- `pickMapQFromMate(mateMapQ, templateAlignmentScore) =
std::min(alignmentScoreToMapq(templateAlignmentScore), mateMapQ)`. -/
def pickMapQFromMate (mateMapQ templateAlignmentScore : Nat) : Nat :=
  min (alignmentScoreToMapq templateAlignmentScore) mateMapQ

/-- `computeAlignmentScore(restOfGenomeCorrection, alignmentProbability,
otherAlignmentsProbability) = floor(-10.0 * log10((otherAlignmentsProbability +
restOfGenomeCorrection) / (otherAlignmentsProbability + alignmentProbability +
restOfGenomeCorrection)))`. The double arithmetic is modelled over the reals
and the `floor`-then-convert-to-unsigned result as the floor integer. -/
noncomputable def computeAlignmentScore
    (restOfGenomeCorrection alignmentProbability otherAlignmentsProbability : ℝ) : ℤ :=
  ⌊(-10 : ℝ) * Real.logb 10 ((otherAlignmentsProbability + restOfGenomeCorrection) /
      (otherAlignmentsProbability + alignmentProbability + restOfGenomeCorrection))⌋

/-- Follows the spec's words, for comparison with `computeAlignmentScore`:
score = ⌊−10 · log₁₀((∑others + R) / (∑all + R))⌋ where the sums range over
the probabilities of all candidate alignments of the read, so that
∑all = alignmentProbability + ∑others. -/
noncomputable def computeAlignmentScoreSpec
    (r alignmentProbability othersSum : ℝ) : ℤ :=
  ⌊(-10 : ℝ) * Real.logb 10 ((othersSum + r) /
      ((alignmentProbability + othersSum) + r))⌋

/-- Modelled from the spec: the lookup table `Quality::logMatchLookup` is built
in Quality.cpp, which is absent from the sources; the header documents the
entry for quality `q` as `log(1-perror)` with `perror = 10^(-quality/10)`, and
the spec says "match base contributes log(1 − p_err)". -/
noncomputable def logMatchLookup (quality : Nat) : ℝ :=
  Real.log (1 - (10 : ℝ) ^ (-(quality : ℝ) / 10))

/-- `Quality::getLogCorrect(quality) = logMatchLookup[quality]`. -/
noncomputable def Quality.getLogCorrect (quality : Nat) : ℝ := logMatchLookup quality

/-- `Quality::getLogMatch(quality) = getLogCorrect(quality)`. -/
noncomputable def Quality.getLogMatch (quality : Nat) : ℝ := Quality.getLogCorrect quality

/-- `Quality::getLogMismatchSlow(quality)`: `mismatch = pow(10.0, quality / -10.0);
return log(mismatch / 3.0)`. -/
noncomputable def Quality.getLogMismatchSlow (quality : Nat) : ℝ :=
  Real.log ((10 : ℝ) ^ ((quality : ℝ) / (-10)) / 3)

/-- `Quality::restOfGenomeCorrection(genomeLength, readLength) =
exp(log(2.0) + log(genomeLength) - log(4.0) * readLength)`. -/
noncomputable def Quality.restOfGenomeCorrection (genomeLength readLength : Nat) : ℝ :=
  Real.exp (Real.log 2 + Real.log (genomeLength : ℝ) - Real.log 4 * (readLength : ℝ))

/-! ## statistics/MatchFinderTileStats.hh -/

/-- Per-tile match finder statistics; the five `uint64_t` counters are
modelled as naturals kept below 2^64. -/
structure MatchFinderTileStats where
  uniqueMatchSeeds_ : Nat
  noMatchSeeds_ : Nat
  repeatMatchSeeds_ : Nat
  tooManyRepeatsSeeds_ : Nat
  repeatMatches_ : Nat
  deriving DecidableEq, Repr

/-- The default constructor zero-initialises all five counters. -/
def MatchFinderTileStats.init : MatchFinderTileStats :=
  { uniqueMatchSeeds_ := 0, noMatchSeeds_ := 0, repeatMatchSeeds_ := 0,
    tooManyRepeatsSeeds_ := 0, repeatMatches_ := 0 }

/-- `operator+(left, right)`: componentwise `uint64_t` addition (`+=` on each
field), which wraps modulo 2^64. -/
def MatchFinderTileStats.add (left right : MatchFinderTileStats) : MatchFinderTileStats :=
  { uniqueMatchSeeds_ := (left.uniqueMatchSeeds_ + right.uniqueMatchSeeds_) % 2 ^ 64,
    noMatchSeeds_ := (left.noMatchSeeds_ + right.noMatchSeeds_) % 2 ^ 64,
    repeatMatchSeeds_ := (left.repeatMatchSeeds_ + right.repeatMatchSeeds_) % 2 ^ 64,
    tooManyRepeatsSeeds_ := (left.tooManyRepeatsSeeds_ + right.tooManyRepeatsSeeds_) % 2 ^ 64,
    repeatMatches_ := (left.repeatMatches_ + right.repeatMatches_) % 2 ^ 64 }

/-- Well-formedness of the model: every counter is a valid `uint64_t` value. -/
def MatchFinderTileStats.Wf (s : MatchFinderTileStats) : Prop :=
  s.uniqueMatchSeeds_ < 2 ^ 64 ∧ s.noMatchSeeds_ < 2 ^ 64 ∧ s.repeatMatchSeeds_ < 2 ^ 64 ∧
  s.tooManyRepeatsSeeds_ < 2 ^ 64 ∧ s.repeatMatches_ < 2 ^ 64

/-! ## reference/SortedReferenceMetadata.hh -/

/-- Source constant `OLDEST_SUPPORTED_REFERENCE_FORMAT_VERSION = 3`. -/
def OLDEST_SUPPORTED_REFERENCE_FORMAT_VERSION : Nat := 3

/-- Source constant `CURRENT_REFERENCE_FORMAT_VERSION = 9`. -/
def CURRENT_REFERENCE_FORMAT_VERSION : Nat := 9

/-- `SortedReferenceMetadata::Contig`: `boost::filesystem::path` and
`std::string` fields are modelled as strings, the integer fields
(`unsigned int` index, `uint64_t` sizes/offsets) as naturals. -/
structure Contig where
  index_ : Nat
  name_ : String
  decoy_ : Bool
  filePath_ : String
  offset_ : Nat
  size_ : Nat
  genomicPosition_ : Nat
  totalBases_ : Nat
  acgtBases_ : Nat
  bamSqAs_ : String
  bamSqUr_ : String
  bamM5_ : String
  deriving DecidableEq, Repr

/-- `Contig::operator==`: conjunction of fieldwise equalities, except that the
MD5 clause is `(bamM5_.empty() && filePath_ == that.filePath_) || bamM5_ ==
that.bamM5_`, where `empty()` on the left operand's digest decides the
fallback to file paths. -/
def Contig.eqOp (a that : Contig) : Bool :=
  a.index_ == that.index_ &&
  a.name_ == that.name_ &&
  a.decoy_ == that.decoy_ &&
  ((a.bamM5_ == "" && a.filePath_ == that.filePath_) || a.bamM5_ == that.bamM5_) &&
  a.offset_ == that.offset_ &&
  a.size_ == that.size_ && a.genomicPosition_ == that.genomicPosition_ &&
  a.totalBases_ == that.totalBases_ &&
  a.acgtBases_ == that.acgtBases_ && a.bamSqAs_ == that.bamSqAs_ && a.bamSqUr_ == that.bamSqUr_

/-- `SortedReferenceMetadata::MaskFile`. -/
structure MaskFile where
  path : String
  maskWidth : Nat
  mask_ : Nat
  kmers : Nat
  deriving DecidableEq, Repr

/-- `SortedReferenceMetadata::AnnotationFile::Type`. -/
inductive AnnotationFileType where
  | Unknown
  | KUniqueness
  | KRepeatness
  deriving DecidableEq, Repr

/-- `SortedReferenceMetadata::AnnotationFile`. -/
structure AnnotationFile where
  type_ : AnnotationFileType
  path_ : String
  k_ : Nat
  deriving DecidableEq, Repr

/-- `SortedReferenceMetadata`: `maskFiles_` is a `std::map` from seed length to
mask file list, modelled as an association list. -/
structure SortedReferenceMetadata where
  maskFiles_ : List (Nat × List MaskFile)
  annotationFiles_ : List AnnotationFile
  contigs_ : List Contig
  formatVersion_ : Nat
  deriving DecidableEq, Repr

/-- The `SortedReferenceMetadata()` constructor: only `formatVersion_` is
explicitly initialised, to `CURRENT_REFERENCE_FORMAT_VERSION`; the containers
are default-constructed empty. -/
def SortedReferenceMetadata.init : SortedReferenceMetadata :=
  { maskFiles_ := [], annotationFiles_ := [], contigs_ := [],
    formatVersion_ := CURRENT_REFERENCE_FORMAT_VERSION }

/-- Concrete contig with an empty `bamM5_` digest, used to exhibit the
asymmetry of `Contig::operator==`. -/
def contigNoM5 : Contig :=
  { index_ := 0, name_ := "chr1", decoy_ := false, filePath_ := "genome.fa",
    offset_ := 0, size_ := 1000, genomicPosition_ := 0, totalBases_ := 1000,
    acgtBases_ := 1000, bamSqAs_ := "", bamSqUr_ := "", bamM5_ := "" }

/-- Same contig as `contigNoM5` except that its `bamM5_` digest is set. -/
def contigWithM5 : Contig :=
  { index_ := 0, name_ := "chr1", decoy_ := false, filePath_ := "genome.fa",
    offset_ := 0, size_ := 1000, genomicPosition_ := 0, totalBases_ := 1000,
    acgtBases_ := 1000, bamSqAs_ := "", bamSqUr_ := "", bamM5_ := "d41d8" }

/-- A third contig sharing the non-empty digest of `contigWithM5` but stored
under a different file path. -/
def contigWithM5OtherPath : Contig :=
  { contigWithM5 with filePath_ := "other.fa" }

/-! ## workflow/AlignWorkflow.cpp

The `AlignWorkflow::State` enumeration is declared in AlignWorkflow.hh, which
is absent from the sources; only AlignWorkflow.cpp is available. -/

namespace AlignWorkflow

/-- Modelled from the spec: the `AlignWorkflow::State` enumerator values
(missing AlignWorkflow.hh). The spec's state machine
Start → Aligned → Reported → Written → Done corresponds to the enumerators
`Start`, `AlignDone`, `AlignmentReportsDone`, `BamDone`, `Finish` used by
AlignWorkflow.cpp, with `Last` and `Invalid` as the pseudo-states taken and
returned by `rewind`/`getNextState`. `Finish` (the completed, "Done" workflow)
is the same enumerator value as `BamDone`: `run()` establishes `BamDone` as
the state after its last `step()`, while `step()` and `cleanupIntermediary()`
switch on `Finish` but have no `BamDone` label and `rewind()` switches on
`BamDone` but has no `Finish` label — each switch is exhaustive over reachable
states only under this aliasing. States are modelled by their integer
enumerator values. -/
def Invalid : Int := -2

/-- Pseudo-state accepted by `rewind`, denoting the state the workflow
currently holds (see the `Invalid` doc comment). -/
def Last : Int := -1

/-- Initial workflow state (see the `Invalid` doc comment). -/
def Start : Int := 0

/-- State after `findMatches` (spec: "Aligned"). -/
def AlignDone : Int := 1

/-- State after `generateAlignmentReports` (spec: "Reported"). -/
def AlignmentReportsDone : Int := 2

/-- State after `generateBam` (spec: "Written"). -/
def BamDone : Int := 3

/-- Completed workflow (spec: "Done"); aliases `BamDone` (see the `Invalid`
doc comment). -/
def Finish : Int := BamDone

/-- `AlignWorkflow::getNextState()`: switch on the current state; the
`default` branch fails `ISAAC_ASSERT_MSG(false, "Invalid state value")`,
modelled as `none`. -/
def getNextState (state_ : Int) : Option Int :=
  if state_ = Start then some AlignDone
  else if state_ = AlignDone then some AlignmentReportsDone
  else if state_ = AlignmentReportsDone then some BamDone
  else if state_ = Finish then some Finish
  else none

/-- `AlignWorkflow::step()`: runs the phase of the current state and advances
`state_ = getNextState()`; at `Finish` it only reports "Already at the Finish
state" and leaves the state unchanged; the `default` branch fails
`ISAAC_ASSERT_MSG(false, "Invalid state")`, modelled as `none`. The phase
side effects (`findMatches`, `generateAlignmentReports`, `generateBam`) are
abstracted away; only the state evolution is modelled. -/
def step (state_ : Int) : Option Int :=
  if state_ = Start then getNextState state_
  else if state_ = AlignDone then getNextState state_
  else if state_ = AlignmentReportsDone then getNextState state_
  else if state_ = Finish then some state_
  else none

/-- Outcome of `AlignWorkflow::rewind`: either the normal return (the state
held before the call) together with the new `state_`, or a thrown
`PreConditionException` message together with the (unchanged) `state_` at the
time of the throw. -/
inductive RewindOutcome where
  | ok : Int → Int → RewindOutcome
  | err : String → Int → RewindOutcome
  deriving DecidableEq, Repr

/-- `AlignWorkflow::rewind(to)`: switch on the target state; each precondition
failure throws before `state_` is assigned. The `default` branch is
`assert(false)`, modelled as an error with the state unchanged. -/
def rewind (state_ toState : Int) : RewindOutcome :=
  if toState = Last then RewindOutcome.ok state_ state_
  else if toState = Start then RewindOutcome.ok state_ Start
  else if toState = AlignDone then
    if state_ = Start then
      RewindOutcome.err "Aligner rewind from Start to MatchFinderDone is not possible" state_
    else RewindOutcome.ok state_ AlignDone
  else if toState = AlignmentReportsDone then
    if state_ = Start then
      RewindOutcome.err "Aligner rewind from Start to MatchSelectorReportsDone is not possible" state_
    else if state_ = AlignDone then
      RewindOutcome.err "Aligner rewind from MatchFinderDone to MatchSelectorReportsDone is not possible" state_
    else RewindOutcome.ok state_ AlignmentReportsDone
  else if toState = BamDone then
    if state_ = Start then
      RewindOutcome.err "Aligner rewind from Start to BamDone is not possible" state_
    else if state_ = AlignDone then
      RewindOutcome.err "Aligner rewind from MatchFinderDone to BamDone is not possible" state_
    else if state_ = AlignmentReportsDone then
      RewindOutcome.err "Aligner rewind from MatchSelectorDone to BamDone is not possible" state_
    else RewindOutcome.ok state_ BamDone
  else RewindOutcome.err "assert(false)" state_

end AlignWorkflow

/-! ## Theorems -/

/-- Helper: `==` of a lawful `BEq` instance gives the same answer on swapped
operands. -/
theorem beq_swap {α : Type} [BEq α] [LawfulBEq α] (x y : α) : (x == y) = (y == x) := by
  by_cases h : x = y
  · subst h; rfl
  · rw [beq_eq_false_iff_ne.mpr h, beq_eq_false_iff_ne.mpr (Ne.symm h)]

/-- C1: for valid (non-UNKNOWN) scores, `pickMapQ` returns
min(60, max(fragmentScore, min(templateScore, mateFragmentScore))) for a
proper pair and min(60, fragmentScore) otherwise, and `pickMapQFromMate`
returns min(min(60, templateScore), mate's MAPQ). -/
theorem pickMapQ_case_analysis
    (alignmentScore mateAlignmentScore templateAlignmentScore mateMapQ : Nat)
    (properPair : Bool)
    (_h1 : alignmentScore ≠ UNKNOWN_ALIGNMENT_SCORE)
    (_h2 : mateAlignmentScore ≠ UNKNOWN_ALIGNMENT_SCORE)
    (_h3 : templateAlignmentScore ≠ UNKNOWN_ALIGNMENT_SCORE)
    (_h4 : mateMapQ ≠ UNKNOWN_MAPQ) :
    pickMapQ alignmentScore mateAlignmentScore properPair templateAlignmentScore =
      (if properPair then
        min 60 (max alignmentScore (min templateAlignmentScore mateAlignmentScore))
       else min 60 alignmentScore) ∧
    pickMapQFromMate mateMapQ templateAlignmentScore =
      min (min 60 templateAlignmentScore) mateMapQ := by
  constructor
  · cases properPair <;> simp [pickMapQ, alignmentScoreToMapq, MAX_MAPQ]
  · rfl

/-- Witness for C1 at fragment score 10, mate score 20, template score 70,
mate MAPQ 40, proper pair. -/
theorem pickMapQ_case_analysis_witness :
    ((10 : Nat) ≠ UNKNOWN_ALIGNMENT_SCORE ∧ (20 : Nat) ≠ UNKNOWN_ALIGNMENT_SCORE ∧
     (70 : Nat) ≠ UNKNOWN_ALIGNMENT_SCORE ∧ (40 : Nat) ≠ UNKNOWN_MAPQ) ∧
    (pickMapQ 10 20 true 70 =
      (if true then min 60 (max 10 (min 70 20)) else min 60 10) ∧
     pickMapQFromMate 40 70 = min (min 60 70) 40) :=
  ⟨⟨by decide, by decide, by decide, by decide⟩,
   pickMapQ_case_analysis 10 20 70 40 true (by decide) (by decide) (by decide) (by decide)⟩

/-- C5: for valid inputs, `alignmentScoreToMapq`, `pickMapQ` and
`pickMapQFromMate` all return values in [0, 60] (the lower bound is inherent
to the unsigned model), with MAX_MAPQ = 60 and UNKNOWN_MAPQ = 255 the
reserved out-of-range value. -/
theorem mapq_values_bounded
    (alignmentScore mateAlignmentScore templateAlignmentScore mateMapQ : Nat)
    (properPair : Bool)
    (_h1 : alignmentScore ≠ UNKNOWN_ALIGNMENT_SCORE)
    (_h2 : mateAlignmentScore ≠ UNKNOWN_ALIGNMENT_SCORE)
    (_h3 : templateAlignmentScore ≠ UNKNOWN_ALIGNMENT_SCORE)
    (_h4 : mateMapQ ≠ UNKNOWN_MAPQ) :
    alignmentScoreToMapq alignmentScore ≤ MAX_MAPQ ∧
    pickMapQ alignmentScore mateAlignmentScore properPair templateAlignmentScore ≤ MAX_MAPQ ∧
    pickMapQFromMate mateMapQ templateAlignmentScore ≤ MAX_MAPQ ∧
    MAX_MAPQ = 60 ∧ UNKNOWN_MAPQ = 255 :=
  ⟨Nat.min_le_left _ _, Nat.min_le_left _ _,
   le_trans (Nat.min_le_left _ _) (Nat.min_le_left _ _), rfl, rfl⟩

/-- Witness for C5 at alignment score 100, mate score 0, template score 200,
mate MAPQ 7, non-proper pair. -/
theorem mapq_values_bounded_witness :
    ((100 : Nat) ≠ UNKNOWN_ALIGNMENT_SCORE ∧ (0 : Nat) ≠ UNKNOWN_ALIGNMENT_SCORE ∧
     (200 : Nat) ≠ UNKNOWN_ALIGNMENT_SCORE ∧ (7 : Nat) ≠ UNKNOWN_MAPQ) ∧
    (alignmentScoreToMapq 100 ≤ MAX_MAPQ ∧
     pickMapQ 100 0 false 200 ≤ MAX_MAPQ ∧
     pickMapQFromMate 7 200 ≤ MAX_MAPQ ∧
     MAX_MAPQ = 60 ∧ UNKNOWN_MAPQ = 255) :=
  ⟨⟨by decide, by decide, by decide, by decide⟩,
   mapq_values_bounded 100 0 200 7 false (by decide) (by decide) (by decide) (by decide)⟩

/-- C6: `isUnique` returns true exactly when the alignment score exceeds
REPEAT_ALIGNMENT_SCORE, which equals 3. -/
theorem isUnique_iff_score_gt_three :
    (∀ alignmentScore : Nat,
      (isUnique alignmentScore = true ↔ 3 < alignmentScore)) ∧
    REPEAT_ALIGNMENT_SCORE = 3 := by
  refine ⟨fun s => ?_, rfl⟩
  simp [isUnique, REPEAT_ALIGNMENT_SCORE]

/-- C8: the supported reference format version range is [3, 9] and a freshly
constructed `SortedReferenceMetadata` carries the current version 9. -/
theorem referenceFormatVersion_range :
    OLDEST_SUPPORTED_REFERENCE_FORMAT_VERSION = 3 ∧
    CURRENT_REFERENCE_FORMAT_VERSION = 9 ∧
    SortedReferenceMetadata.init.formatVersion_ = CURRENT_REFERENCE_FORMAT_VERSION ∧
    SortedReferenceMetadata.init.formatVersion_ = 9 :=
  ⟨rfl, rfl, rfl, rfl⟩

/-- C3: from `Start`, successive `step()` calls advance the state along
Start → AlignDone → AlignmentReportsDone → BamDone → Finish, one state per
call and never skipping or reordering, and `step()` in the final state
leaves the state unchanged (in the modelled enumeration the completed states
`BamDone` and `Finish` coincide). -/
theorem alignWorkflow_step_chain :
    AlignWorkflow.step AlignWorkflow.Start = some AlignWorkflow.AlignDone ∧
    AlignWorkflow.step AlignWorkflow.AlignDone = some AlignWorkflow.AlignmentReportsDone ∧
    AlignWorkflow.step AlignWorkflow.AlignmentReportsDone = some AlignWorkflow.BamDone ∧
    AlignWorkflow.step AlignWorkflow.BamDone = some AlignWorkflow.Finish ∧
    AlignWorkflow.step AlignWorkflow.Finish = some AlignWorkflow.Finish := by
  decide

/-- C4: over the reachable workflow states and the admissible rewind targets,
`rewind` succeeds — returning the state held before the call and setting the
state to the target (to the current state for the pseudo-target `Last`) —
exactly when the target is not ahead of the current state, and otherwise
throws a precondition error leaving the state unchanged. -/
theorem alignWorkflow_rewind_spec (c t : Int)
    (hc : c = AlignWorkflow.Start ∨ c = AlignWorkflow.AlignDone ∨
          c = AlignWorkflow.AlignmentReportsDone ∨ c = AlignWorkflow.BamDone)
    (ht : t = AlignWorkflow.Last ∨ t = AlignWorkflow.Start ∨ t = AlignWorkflow.AlignDone ∨
          t = AlignWorkflow.AlignmentReportsDone ∨ t = AlignWorkflow.BamDone ∨
          t = AlignWorkflow.Finish) :
    (t ≤ c →
      AlignWorkflow.rewind c t =
        AlignWorkflow.RewindOutcome.ok c (if t = AlignWorkflow.Last then c else t)) ∧
    (c < t → ∃ msg, AlignWorkflow.rewind c t = AlignWorkflow.RewindOutcome.err msg c) := by
  rcases hc with rfl | rfl | rfl | rfl <;>
    rcases ht with rfl | rfl | rfl | rfl | rfl | rfl <;>
      refine ⟨fun h => ?_, fun h => ?_⟩ <;>
        first
          | rfl
          | exact absurd h (by decide)
          | exact ⟨_, rfl⟩

/-- Witness for C4 at current state `AlignDone` and target `Start` (a rewind
that must succeed) — both hypothesis disjunctions discharged concretely. -/
theorem alignWorkflow_rewind_spec_witness :
    (AlignWorkflow.AlignDone = AlignWorkflow.Start ∨
     AlignWorkflow.AlignDone = AlignWorkflow.AlignDone ∨
     AlignWorkflow.AlignDone = AlignWorkflow.AlignmentReportsDone ∨
     AlignWorkflow.AlignDone = AlignWorkflow.BamDone) ∧
    (AlignWorkflow.Start = AlignWorkflow.Last ∨ AlignWorkflow.Start = AlignWorkflow.Start ∨
     AlignWorkflow.Start = AlignWorkflow.AlignDone ∨
     AlignWorkflow.Start = AlignWorkflow.AlignmentReportsDone ∨
     AlignWorkflow.Start = AlignWorkflow.BamDone ∨
     AlignWorkflow.Start = AlignWorkflow.Finish) ∧
    ((AlignWorkflow.Start ≤ AlignWorkflow.AlignDone →
      AlignWorkflow.rewind AlignWorkflow.AlignDone AlignWorkflow.Start =
        AlignWorkflow.RewindOutcome.ok AlignWorkflow.AlignDone
          (if AlignWorkflow.Start = AlignWorkflow.Last then AlignWorkflow.AlignDone
           else AlignWorkflow.Start)) ∧
     (AlignWorkflow.AlignDone < AlignWorkflow.Start → ∃ msg,
      AlignWorkflow.rewind AlignWorkflow.AlignDone AlignWorkflow.Start =
        AlignWorkflow.RewindOutcome.err msg AlignWorkflow.AlignDone)) :=
  ⟨by decide, by decide,
   alignWorkflow_rewind_spec AlignWorkflow.AlignDone AlignWorkflow.Start
     (by decide) (by decide)⟩

/-- C9: the per-tile match-finder statistics hold exactly the five counters,
all zero on construction; `operator+` (componentwise modular addition) is
commutative and associative, and the default-constructed value is a (left and
right) identity on well-formed (in-range) operands. -/
theorem matchFinderTileStats_monoid :
    (MatchFinderTileStats.init.uniqueMatchSeeds_ = 0 ∧
     MatchFinderTileStats.init.noMatchSeeds_ = 0 ∧
     MatchFinderTileStats.init.repeatMatchSeeds_ = 0 ∧
     MatchFinderTileStats.init.tooManyRepeatsSeeds_ = 0 ∧
     MatchFinderTileStats.init.repeatMatches_ = 0) ∧
    (∀ a b : MatchFinderTileStats, a.add b = b.add a) ∧
    (∀ a b c : MatchFinderTileStats, (a.add b).add c = a.add (b.add c)) ∧
    (∀ a : MatchFinderTileStats, a.Wf →
      a.add MatchFinderTileStats.init = a ∧ MatchFinderTileStats.init.add a = a) := by
  refine ⟨⟨rfl, rfl, rfl, rfl, rfl⟩, ?_, ?_, ?_⟩
  · intro a b
    simp [MatchFinderTileStats.add, MatchFinderTileStats.mk.injEq, Nat.add_comm]
  · intro a b c
    simp [MatchFinderTileStats.add, MatchFinderTileStats.mk.injEq,
      Nat.mod_add_mod, Nat.add_mod_mod, Nat.add_assoc]
  · rintro ⟨u, n, r, t, m⟩ ⟨h1, h2, h3, h4, h5⟩
    dsimp only at h1 h2 h3 h4 h5
    refine ⟨?_, ?_⟩ <;>
      simp only [MatchFinderTileStats.add, MatchFinderTileStats.init,
        MatchFinderTileStats.mk.injEq, Nat.add_zero, Nat.zero_add] <;>
      exact ⟨Nat.mod_eq_of_lt h1, Nat.mod_eq_of_lt h2, Nat.mod_eq_of_lt h3,
        Nat.mod_eq_of_lt h4, Nat.mod_eq_of_lt h5⟩

/-- Witness for C9: the identity law applied to the in-range statistics value
(1, 2, 3, 4, 5). -/
theorem matchFinderTileStats_monoid_witness :
    (MatchFinderTileStats.mk 1 2 3 4 5).Wf ∧
    ((MatchFinderTileStats.mk 1 2 3 4 5).add MatchFinderTileStats.init =
       MatchFinderTileStats.mk 1 2 3 4 5 ∧
     MatchFinderTileStats.init.add (MatchFinderTileStats.mk 1 2 3 4 5) =
       MatchFinderTileStats.mk 1 2 3 4 5) :=
  ⟨by unfold MatchFinderTileStats.Wf; decide,
   matchFinderTileStats_monoid.2.2.2 _ (by unfold MatchFinderTileStats.Wf; decide)⟩

/-- C10 counterexample: `Contig::operator==` is not symmetric. `contigNoM5`
and `contigWithM5` agree on every field except that exactly one of them has an
empty `bamM5_` digest; comparing with the empty digest on the left falls back
to the (equal) file paths and yields true, while the flipped comparison
compares the digests and yields false. -/
theorem contigEq_not_symmetric :
    Contig.eqOp contigNoM5 contigWithM5 = true ∧
    Contig.eqOp contigWithM5 contigNoM5 = false := by
  constructor <;> rfl

/-- C10 amended: `Contig::operator==` is symmetric on every pair of contigs
whose `bamM5_` digests are both empty or both non-empty (the asymmetry arises
only when exactly one digest is empty). -/
theorem contigEq_symm_of_m5_agree (a b : Contig)
    (h : a.bamM5_ = "" ↔ b.bamM5_ = "") :
    Contig.eqOp a b = Contig.eqOp b a := by
  have em5 : ((a.bamM5_ == "" && a.filePath_ == b.filePath_) || a.bamM5_ == b.bamM5_) =
      ((b.bamM5_ == "" && b.filePath_ == a.filePath_) || b.bamM5_ == a.bamM5_) := by
    by_cases ha : a.bamM5_ = ""
    · have hb : b.bamM5_ = "" := h.mp ha
      rw [ha, hb]
      simp
    · have hb : b.bamM5_ ≠ "" := fun hb => ha (h.mpr hb)
      rw [beq_eq_false_iff_ne.mpr ha, beq_eq_false_iff_ne.mpr hb]
      simp [beq_swap a.bamM5_ b.bamM5_]
  simp only [Contig.eqOp]
  rw [em5, beq_swap a.index_ b.index_, beq_swap a.name_ b.name_, beq_swap a.decoy_ b.decoy_,
    beq_swap a.offset_ b.offset_, beq_swap a.size_ b.size_,
    beq_swap a.genomicPosition_ b.genomicPosition_, beq_swap a.totalBases_ b.totalBases_,
    beq_swap a.acgtBases_ b.acgtBases_, beq_swap a.bamSqAs_ b.bamSqAs_,
    beq_swap a.bamSqUr_ b.bamSqUr_]

/-- Witness for the amended C10 at two contigs that both carry a (non-empty)
digest but are stored under different file paths. -/
theorem contigEq_symm_of_m5_agree_witness :
    (contigWithM5.bamM5_ = "" ↔ contigWithM5OtherPath.bamM5_ = "") ∧
    Contig.eqOp contigWithM5 contigWithM5OtherPath =
      Contig.eqOp contigWithM5OtherPath contigWithM5 :=
  ⟨by decide, contigEq_symm_of_m5_agree contigWithM5 contigWithM5OtherPath (by decide)⟩

/-- C2: `computeAlignmentScore` computes exactly the spec's formula
⌊−10·log₁₀((∑others + R)/(∑all + R))⌋ (with ∑all = p + ∑others), and for a
positive genome length `restOfGenomeCorrection` equals 2·G/4^L. -/
theorem alignmentScore_formula :
    (∀ r p o : ℝ, computeAlignmentScore r p o = computeAlignmentScoreSpec r p o) ∧
    (∀ genomeLength readLength : Nat, 0 < genomeLength →
      Quality.restOfGenomeCorrection genomeLength readLength =
        2 * (genomeLength : ℝ) / 4 ^ readLength) := by
  constructor
  · intro r p o
    unfold computeAlignmentScore computeAlignmentScoreSpec
    have hd : o + p + r = p + o + r := by ring
    rw [hd]
  · intro G L hG
    have hG' : (0 : ℝ) < (G : ℝ) := by exact_mod_cast hG
    unfold Quality.restOfGenomeCorrection
    rw [Real.exp_sub, Real.exp_add, Real.exp_log two_pos, Real.exp_log hG',
      mul_comm (Real.log 4) (L : ℝ), Real.exp_nat_mul,
      Real.exp_log (by norm_num : (0 : ℝ) < 4)]

/-- Witness for C2: the rest-of-genome correction at genome length 2 and read
length 1 (2·2/4 = 1). -/
theorem alignmentScore_formula_witness :
    0 < 2 ∧
    Quality.restOfGenomeCorrection 2 1 = 2 * ((2 : Nat) : ℝ) / 4 ^ 1 :=
  ⟨by decide, alignmentScore_formula.2 2 1 (by decide)⟩

/-- C7: a matching base contributes log(1 − p_err) through
`getLogMatch`/`getLogCorrect` and a mismatching base contributes
log(p_err / 3) through `getLogMismatchSlow`, with p_err = 10^(−q/10). -/
theorem perBase_log_contributions :
    ∀ quality : Nat,
      Quality.getLogMatch quality = Real.log (1 - (10 : ℝ) ^ (-(quality : ℝ) / 10)) ∧
      Quality.getLogMismatchSlow quality =
        Real.log ((10 : ℝ) ^ (-(quality : ℝ) / 10) / 3) := by
  intro q
  refine ⟨rfl, ?_⟩
  unfold Quality.getLogMismatchSlow
  have he : (q : ℝ) / (-10) = -(q : ℝ) / 10 := by ring
  rw [he]

end Isaac
